import Mathlib

/-!
Verification of the vLLM emulator (inferno-autoscaler repository).

Shallow embedding of:
  - hack/vllme/vllm_emulator/loadgen.py   (rate schedules)
  - hack/vllme/vllm_emulator/metrics.py   (metric registration, "hack" variant)
  - tools/vllm-emulator/metrics.py        (metric registration, "tools" variant)
  - hack/vllme/vllm_emulator/server.py    (Settings, engine construction, chat handler)
  - the Device admission model and construction validation, modelled from the
    spec where the defining module (vllm_model.py) is not in the source tree.

Python numbers that carry fractional values (times in seconds, rates, memory
ratios) are embedded as rationals; integer quantities as Int/Nat.
-/

namespace VllmEmulator

/-! ### Load generator rate schedules (loadgen.py, get_current_rate) -/

/-- A rate specification: either a constant rate (a Python float) or a list of
(duration, rate) segments, mirroring Union[float, list[Tuple[float, float]]]. -/
inductive RateSpec where
  | const (rate : ℚ)
  | schedule (segs : List (ℚ × ℚ))
  deriving DecidableEq

/-- The loop of get_current_rate: walks the segments keeping the cumulative
time marker; returns the rate of the first segment whose cumulative end time
is at least elapsed, and 0.0 after all scheduled periods. -/
def rateLoop (elapsed : ℚ) : ℚ → List (ℚ × ℚ) → ℚ
  | _, [] => 0
  | time_marker, (duration, rpm) :: rest =>
      if elapsed ≤ time_marker + duration then rpm
      else rateLoop elapsed (time_marker + duration) rest

/-- get_current_rate from loadgen.py: a float rate_spec is returned unchanged;
a list rate_spec is scanned with a cumulative time marker starting at 0. -/
def get_current_rate (elapsed : ℚ) : RateSpec → ℚ
  | .const r => r
  | .schedule segs => rateLoop elapsed 0 segs

/-- Sum of the durations of a prefix of the segment list. -/
def sumDur (segs : List (ℚ × ℚ)) : ℚ := (segs.map Prod.fst).sum

example : get_current_rate 5 (.schedule [(3, 10), (4, 20)]) = 20 := by
  norm_num [get_current_rate, rateLoop]
example : get_current_rate 3 (.schedule [(3, 10), (4, 20)]) = 10 := by
  norm_num [get_current_rate, rateLoop]
example : get_current_rate 8 (.schedule [(3, 10), (4, 20)]) = 0 := by
  norm_num [get_current_rate, rateLoop]
example : get_current_rate 8 (.const (7/2)) = 7/2 := rfl

/-! ### Metric registration (metrics.py, both variants)

Each prometheus_client registration in Metrics.__init__ is embedded as one
list entry recording the metric's kind, its registered name, and (for
histograms) its bucket boundaries.  The label key, dict(model_name=...), is
recorded separately.  prometheus_client appends a `_total` suffix to the
exposed name of every Counter (noted in the source's comments). -/

inductive MetricKind where
  | gauge
  | counter
  | histogram
  deriving DecidableEq

structure MetricRegistration where
  kind : MetricKind
  name : String
  buckets : List ℚ := []
  deriving DecidableEq

/-- The label key under which every metric is registered (server.py:
labels = dict(model_name = settings.model)). -/
def metricsLabelKey : String := "model_name"

/-- request_latency_buckets, identical in both metrics.py variants. -/
def request_latency_buckets : List ℚ :=
  [0.3, 0.5, 0.8, 1.0, 1.5, 2.0, 2.5, 5.0, 10.0, 15.0, 20.0, 30.0,
   40.0, 50.0, 60.0, 120.0, 240.0, 480.0, 960.0, 1920.0, 7680.0]

/-- Inter-token-latency buckets of the tools variant. -/
def itl_buckets : List ℚ :=
  [0.01, 0.025, 0.05, 0.075, 0.1, 0.15, 0.2, 0.3, 0.4, 0.5, 0.75, 1.0, 2.5]

/-- Generation-token-count buckets of the tools variant. -/
def generation_tokens_buckets : List ℚ :=
  [1, 2, 5, 10, 20, 50, 100, 200, 500, 1000, 2000, 5000]

/-- Metrics.__init__ of hack/vllme/vllm_emulator/metrics.py, in source order. -/
def hackMetrics : List MetricRegistration :=
  [ { kind := .gauge, name := "vllm:num_requests_running" },
    { kind := .gauge, name := "vllm:num_requests_waiting" },
    { kind := .gauge, name := "vllm:gpu_cache_usage_perc" },
    { kind := .counter, name := "vllm:requests_count" },
    { kind := .counter, name := "vllm:tokens_count" },
    { kind := .histogram, name := "vllm:request_queue_time_seconds",
      buckets := request_latency_buckets } ]

/-- Metrics.__init__ of tools/vllm-emulator/metrics.py, in source order. -/
def toolsMetrics : List MetricRegistration :=
  [ { kind := .gauge, name := "vllm:num_requests_running" },
    { kind := .gauge, name := "vllm:num_requests_waiting" },
    { kind := .gauge, name := "vllm:gpu_cache_usage_perc" },
    { kind := .counter, name := "vllm:request_arrival" },
    { kind := .counter, name := "vllm:request_success" },
    { kind := .counter, name := "vllm:tokens" },
    { kind := .histogram, name := "vllm:time_per_output_token_seconds",
      buckets := itl_buckets },
    { kind := .histogram, name := "vllm:request_queue_time_seconds",
      buckets := request_latency_buckets },
    { kind := .histogram, name := "vllm:request_generation_tokens",
      buckets := generation_tokens_buckets } ]

/-- The name a registration is exposed under: prometheus_client appends
_total to every Counter name. -/
def exposedName (r : MetricRegistration) : String :=
  match r.kind with
  | .counter => r.name ++ "_total"
  | _ => r.name

/-- The sink registers a metric of the given kind whose name is the given
bare name carrying the registry's vllm: prefix. -/
def registersMetric (l : List MetricRegistration) (k : MetricKind) (n : String) : Prop :=
  ∃ r ∈ l, r.kind = k ∧ r.name = "vllm:" ++ n

instance (l : List MetricRegistration) (k : MetricKind) (n : String) :
    Decidable (registersMetric l k n) := by
  unfold registersMetric; infer_instance

/-! ### Configuration surface and engine construction (server.py lines 21-58) -/

/-- class Settings(BaseSettings) from server.py.  Every field is read from the
environment (directly via os.getenv or through pydantic BaseSettings); the
listed values are the defaults. -/
structure Settings where
  model : String := "default"
  decode_time : Int := 50
  prefill_time : Int := 100
  model_size : Int := 25000
  kvc_per_token : Int := 4
  max_seq_len : Int := 2048
  mem_size : Int := 80000
  avg_generated_len : Int := 100
  tokens_distribution : String := "uniform"
  max_batch_size : Int := 1
  realtime : Bool := true
  mute_print : Bool := false
  deriving DecidableEq

/-- Clock construction arguments (server.py lines 38-42). -/
structure Clock where
  start_time : Int
  step_time : Int
  realtime : Bool
  deriving DecidableEq

/-- Model construction arguments (server.py lines 44-50). -/
structure Model where
  model_name : String
  model_size : Int
  kvcache_per_token : Int
  decode_time : Int
  prefill_time : Int
  deriving DecidableEq

/-- Device construction arguments (server.py line 55). -/
structure DeviceCfg where
  device_id : Int
  net_memory : Int
  model_name : String
  useable_ratio : ℚ
  deriving DecidableEq

/-- vLLM engine construction arguments (server.py line 57). -/
structure VLLMCfg where
  max_batch_size : Int
  deriving DecidableEq

/-- Load generator construction arguments (server.py line 58). -/
structure LoadCfg where
  avg_generated_len : Int
  tokens_distribution : String
  deriving DecidableEq

/-- Everything the module-level setup of server.py constructs. -/
structure EmulatorSystem where
  clock : Clock
  model : Model
  gpu : DeviceCfg
  vllmi : VLLMCfg
  load : LoadCfg
  deriving DecidableEq

/-- The module-level construction in server.py (lines 38-58): a Clock, a
Model, a Device, a vLLM engine and a Load generator, each fed from the
Settings object — except the Device's useable_ratio, which is the literal
0.8 in the source. -/
def buildSystem (s : Settings) : EmulatorSystem :=
  { clock := { start_time := 0, step_time := s.decode_time, realtime := s.realtime },
    model := { model_name := s.model, model_size := s.model_size,
               kvcache_per_token := s.kvc_per_token,
               decode_time := s.decode_time, prefill_time := s.prefill_time },
    gpu := { device_id := 1, net_memory := s.mem_size, model_name := s.model,
             useable_ratio := 0.8 },
    vllmi := { max_batch_size := s.max_batch_size },
    load := { avg_generated_len := s.avg_generated_len,
              tokens_distribution := s.tokens_distribution } }

/-- Modelled from the spec: the constructors of Clock, Model, Device and the
vLLM engine live in vllm_model.py, which is not part of the provided source
tree.  Per the spec's error-handling design, construction must fail with a
ConfigurationError when any memory or timing constant is non-positive or the
batch size is zero or negative, and the process must not start. -/
inductive ConfigurationError where
  | nonPositiveConstant
  deriving DecidableEq

/-- Modelled from the spec: validated construction — check the memory
constants (model weight size, per-token KV-cache cost, total device memory),
the timing constants (prefill and decode durations) and the maximum batch
size before building the system; fail with ConfigurationError when any is
non-positive. -/
def constructChecked (s : Settings) : Except ConfigurationError EmulatorSystem :=
  if s.decode_time ≤ 0 ∨ s.prefill_time ≤ 0 ∨ s.model_size ≤ 0 ∨
     s.kvc_per_token ≤ 0 ∨ s.mem_size ≤ 0 ∨ s.max_batch_size ≤ 0 then
    .error .nonPositiveConstant
  else
    .ok (buildSystem s)

/-! ### Device memory model

Modelled from the spec: the Device class lives in vllm_model.py, which is not
part of the provided source tree; server.py only constructs it.  The model
follows spec sections 3 and 4.3: a Device tracks total memory, the usable
ratio, memory committed to model weights and memory committed to live
KV-cache; try_reserve atomically checks committed + bytes against
total * usable_ratio and commits on success, release decrements with a
defensive clamp at zero. -/
structure Device where
  net_memory : ℚ
  useable_ratio : ℚ
  weights : ℚ
  kv_committed : ℚ
  deriving DecidableEq

/-- The admissible memory budget, total * usable_ratio. -/
def Device.budget (d : Device) : ℚ := d.net_memory * d.useable_ratio

/-- Modelled from the spec (section 4.3): try_reserve(bytes) checks
committed + bytes ≤ total * usable_ratio; on success it increments the
committed KV-cache memory and returns true, on failure it returns false and
makes no change. -/
def Device.try_reserve (d : Device) (bytes : ℚ) : Device × Bool :=
  if d.weights + d.kv_committed + bytes ≤ d.budget then
    ({ d with kv_committed := d.kv_committed + bytes }, true)
  else
    (d, false)

/-- Modelled from the spec (section 4.3): release(bytes) decrements committed
KV-cache memory, clamping defensively at zero. -/
def Device.release (d : Device) (bytes : ℚ) : Device :=
  { d with kv_committed := max 0 (d.kv_committed - bytes) }

/-- Modelled from the spec: the reachable Device states.  A Device starts
with its model weights committed (construction fails unless the weights fit
in the budget) and no live KV-cache; the Scheduler's single admission path
then reserves the projected KV-cache cost of admitted requests and releases
it at retirement.  Reserved and released sizes are byte counts, hence
non-negative. -/
inductive Device.Reachable : Device → Prop where
  | init (net ratio weights : ℚ) (hw : weights ≤ net * ratio) :
      Device.Reachable
        { net_memory := net, useable_ratio := ratio,
          weights := weights, kv_committed := 0 }
  | reserve (d : Device) (bytes : ℚ) (hb : 0 ≤ bytes)
      (hd : Device.Reachable d) : Device.Reachable (d.try_reserve bytes).1
  | release (d : Device) (bytes : ℚ) (hb : 0 ≤ bytes)
      (hd : Device.Reachable d) : Device.Reachable (d.release bytes)

/-! ### Requests and the chat-completions handler (server.py lines 64-119) -/

/-- The per-request record.  server.py constructs it with an id and the two
token lengths and later reads the scheduler-written fields; the timestamps
are unset until the scheduler reaches them (spec section 3).  The admission
timestamp is recorded by the scheduler per spec section 4.5 but is never read
back by the handler. -/
structure RequestElement where
  req_id : String
  InputTokenLength : Int
  OutputTokenLength : Int
  token_len : Int := 0
  arrival_time : Option ℚ := none
  admission_time : Option ℚ := none
  ttft_met_time : Option ℚ := none
  completion_time : Option ℚ := none
  deriving DecidableEq

/-- RequestElement construction as the handler performs it (server.py line
96): only the id and the token lengths are supplied. -/
def mkRequestElement (req_id : String) (input_token_length output_token_length : Int) :
    RequestElement :=
  { req_id := req_id, InputTokenLength := input_token_length,
    OutputTokenLength := output_token_length }

/-- Request-id construction (server.py line 94): the arrival instant
formatted to second granularity by strftime with a trailing dash, followed by
str(random.randint(0, 100)).  nowSecond stands for the formatted instant. -/
def mkReqId (nowSecond : String) (r : Nat) : String := nowSecond ++ toString r

/-- A chat message of the request body (server.py lines 64-66). -/
structure ChatMessage where
  role : String
  content : String
  deriving DecidableEq

instance : Inhabited ChatMessage := ⟨{ role := "", content := "" }⟩

/-- The chat-completions request body (server.py lines 68-73). -/
structure ChatCompletionRequest where
  model : String := "mock-gpt-model"
  messages : List ChatMessage
  max_tokens : Int := 512
  temperature : ℚ := 0.1
  stream : Bool := false
  deriving DecidableEq

/-- A value interpolated into the handler's stats string: either a timestamp
field (None until set) or a token count. -/
inductive StatValue where
  | time (t : Option ℚ)
  | count (n : Int)
  deriving DecidableEq

/-- The labelled values interpolated into resp_content's f-string (server.py
line 101), in source order. -/
def statsFields (r : RequestElement) : List (String × StatValue) :=
  [ ("arrival time", .time r.arrival_time),
    ("completion time", .time r.completion_time),
    ("ttft", .time r.ttft_met_time),
    ("input_token_len", .count r.InputTokenLength),
    ("output_token_len", .count r.token_len) ]

/-- The handler's response content: either the stats string interpolating the
fields of the completed request, or the literal reply given when the first
message's role is not user.  emptyMessageSent stands for the string
constant at server.py line 103. -/
inductive RespContent where
  | stats (fields : List (String × StatValue))
  | emptyMessageSent
  deriving DecidableEq

/-- The JSON object returned by the handler (server.py lines 106-119). -/
structure ChatResponse where
  id : String
  object : String
  created : Int
  model : String
  content : RespContent
  prompt_tokens : Int
  completion_tokens : Int
  deriving DecidableEq

/-- The chat_completions handler (server.py lines 87-119).  load stands for
load.get_output_len; submit for the scheduler's blocking
vllmi.add_new_request_wait, returning the request as the scheduler left it
when the completion signal resolved (Python mutates reqi in place; the
embedding threads it through submit).  req_id and created stand for the two
wall-clock reads.  Indexing messages[-1] on an empty message list raises, so
the handler is partial: none models the exception. -/
def chat_completions (load : Int → Int) (submit : RequestElement → RequestElement)
    (req_id : String) (created : Int) (request : ChatCompletionRequest) :
    Option ChatResponse :=
  match request.messages.getLast? with
  | none => none
  | some lastMsg =>
      let input_len : Int := (lastMsg.content.length : Int)
      let output_len : Int := load input_len
      let reqi0 := mkRequestElement req_id input_len output_len
      let reqi := submit reqi0
      let resp_content :=
        if !request.messages.isEmpty && (request.messages.headI.role == "user") then
          RespContent.stats (statsFields reqi)
        else
          RespContent.emptyMessageSent
      some { id := req_id, object := "chat.completion", created := created,
             model := request.model, content := resp_content,
             prompt_tokens := reqi.InputTokenLength,
             completion_tokens := reqi.token_len }

/-! ## Theorems -/

theorem sumDur_cons (p : ℚ × ℚ) (l : List (ℚ × ℚ)) :
    sumDur (p :: l) = p.1 + sumDur l := by
  simp [sumDur]

theorem sumDur_nonneg (l : List (ℚ × ℚ)) (h : ∀ p ∈ l, 0 ≤ p.1) :
    0 ≤ sumDur l := by
  induction l with
  | nil => simp [sumDur]
  | cons p rest ih =>
      rw [sumDur_cons]
      have hp := h p (List.mem_cons_self p rest)
      have hr := ih fun q hq => h q (List.mem_cons_of_mem p hq)
      linarith

theorem rateLoop_first (elapsed : ℚ) :
    ∀ (segs : List (ℚ × ℚ)) (m : ℚ) (i : ℕ) (h1 : i < segs.length),
      elapsed ≤ m + sumDur (segs.take (i + 1)) →
      (∀ j < i, m + sumDur (segs.take (j + 1)) < elapsed) →
      rateLoop elapsed m segs = (segs.get ⟨i, h1⟩).2 := by
  intro segs
  induction segs with
  | nil => intro m i h1; exact absurd h1 (by simp)
  | cons p rest ih =>
      intro m i h1 h2 h3
      obtain ⟨d, r⟩ := p
      cases i with
      | zero =>
          rw [List.take_succ_cons, List.take_zero, sumDur_cons] at h2
          simp only [sumDur, List.map_nil, List.sum_nil, add_zero] at h2
          simp [rateLoop, h2]
      | succ j =>
          have hhead := h3 0 (Nat.succ_pos j)
          rw [List.take_succ_cons, List.take_zero, sumDur_cons] at hhead
          simp only [sumDur, List.map_nil, List.sum_nil, add_zero] at hhead
          have hcond : ¬ elapsed ≤ m + d := not_le.mpr hhead
          rw [rateLoop, if_neg hcond]
          have h1' : j < rest.length := Nat.lt_of_succ_lt_succ h1
          have h2' : elapsed ≤ (m + d) + sumDur (rest.take (j + 1)) := by
            rw [List.take_succ_cons, sumDur_cons] at h2
            linarith
          have h3' : ∀ k < j, (m + d) + sumDur (rest.take (k + 1)) < elapsed := by
            intro k hk
            have := h3 (k + 1) (Nat.succ_lt_succ hk)
            rw [List.take_succ_cons, sumDur_cons] at this
            linarith
          exact ih (m + d) j h1' h2' h3'

theorem rateLoop_exhausted (elapsed : ℚ) :
    ∀ (segs : List (ℚ × ℚ)) (m : ℚ), (∀ p ∈ segs, 0 ≤ p.1) →
      m + sumDur segs < elapsed → rateLoop elapsed m segs = 0 := by
  intro segs
  induction segs with
  | nil => intro m _ _; rfl
  | cons p rest ih =>
      intro m h hlt
      obtain ⟨d, r⟩ := p
      rw [sumDur_cons] at hlt
      have hrest : 0 ≤ sumDur rest :=
        sumDur_nonneg rest fun q hq => h q (List.mem_cons_of_mem _ hq)
      have hcond : ¬ elapsed ≤ m + d := by
        simp only [not_le]
        have := h (d, r) (List.mem_cons_self _ rest)
        simp only at this
        linarith
      rw [rateLoop, if_neg hcond]
      exact ih (m + d) (fun q hq => h q (List.mem_cons_of_mem _ hq)) (by linarith)

/-- C9: get_current_rate returns a float rate_spec unchanged; on a segment
list it returns the rate of the first segment whose cumulative end time is at
least the elapsed time (a boundary belongs to the earlier segment), and 0.0
once the non-negative elapsed time exceeds the sum of all segment
durations. -/
theorem get_current_rate_correct (elapsed : ℚ) (he : 0 ≤ elapsed) :
    (∀ r : ℚ, get_current_rate elapsed (.const r) = r) ∧
    (∀ (segs : List (ℚ × ℚ)) (i : ℕ) (h1 : i < segs.length),
       elapsed ≤ sumDur (segs.take (i + 1)) →
       (∀ j < i, sumDur (segs.take (j + 1)) < elapsed) →
       get_current_rate elapsed (.schedule segs) = (segs.get ⟨i, h1⟩).2) ∧
    (∀ segs : List (ℚ × ℚ), (∀ p ∈ segs, 0 ≤ p.1) →
       sumDur segs < elapsed → get_current_rate elapsed (.schedule segs) = 0) := by
  refine ⟨fun r => rfl, ?_, ?_⟩
  · intro segs i h1 h2 h3
    have h2' : elapsed ≤ 0 + sumDur (segs.take (i + 1)) := by linarith
    have h3' : ∀ j < i, 0 + sumDur (segs.take (j + 1)) < elapsed := by
      intro j hj; have := h3 j hj; linarith
    exact rateLoop_first elapsed segs 0 i h1 h2' h3'
  · intro segs hn hlt
    exact rateLoop_exhausted elapsed segs 0 hn (by linarith)

/-- Witness for C9, at elapsed time 5. -/
theorem get_current_rate_correct_witness :
    (0 : ℚ) ≤ 5 ∧
    ((∀ r : ℚ, get_current_rate 5 (.const r) = r) ∧
     (∀ (segs : List (ℚ × ℚ)) (i : ℕ) (h1 : i < segs.length),
        (5 : ℚ) ≤ sumDur (segs.take (i + 1)) →
        (∀ j < i, sumDur (segs.take (j + 1)) < (5 : ℚ)) →
        get_current_rate 5 (.schedule segs) = (segs.get ⟨i, h1⟩).2) ∧
     (∀ segs : List (ℚ × ℚ), (∀ p ∈ segs, 0 ≤ p.1) →
        sumDur segs < (5 : ℚ) → get_current_rate 5 (.schedule segs) = 0)) :=
  ⟨by norm_num, get_current_rate_correct 5 (by norm_num)⟩

theorem Device.reachable_props (d : Device) (hd : d.Reachable) :
    0 ≤ d.kv_committed ∧
    d.weights + d.kv_committed ≤ d.net_memory * d.useable_ratio := by
  induction hd with
  | init net ratio weights hw => simpa using hw
  | reserve d bytes hb _ ih =>
      obtain ⟨ih1, ih2⟩ := ih
      by_cases h : d.weights + d.kv_committed + bytes ≤ d.budget
      · rw [Device.try_reserve, if_pos h]
        have h' : d.weights + d.kv_committed + bytes ≤ d.net_memory * d.useable_ratio := h
        constructor
        · show 0 ≤ d.kv_committed + bytes
          linarith
        · show d.weights + (d.kv_committed + bytes) ≤ d.net_memory * d.useable_ratio
          linarith
      · rw [Device.try_reserve, if_neg h]
        exact ⟨ih1, ih2⟩
  | release d bytes hb _ ih =>
      obtain ⟨ih1, ih2⟩ := ih
      refine ⟨le_max_left 0 _, ?_⟩
      rcases le_total 0 (d.kv_committed - bytes) with hc | hc
      · simp only [Device.release, max_eq_right hc]
        linarith
      · simp only [Device.release, max_eq_left hc]
        linarith

/-- C1: in every reachable Device state the memory committed to model
weights plus the memory committed to live KV-cache is at most the total
memory times the usable ratio, and a reservation that would violate this
bound is refused with the committed memory left unchanged. -/
theorem device_admission_invariant (d : Device) (hd : d.Reachable) :
    d.weights + d.kv_committed ≤ d.net_memory * d.useable_ratio ∧
    ∀ bytes : ℚ,
      ¬ d.weights + d.kv_committed + bytes ≤ d.net_memory * d.useable_ratio →
      (d.try_reserve bytes).2 = false ∧ (d.try_reserve bytes).1 = d := by
  refine ⟨(Device.reachable_props d hd).2, ?_⟩
  intro bytes h
  rw [show d.net_memory * d.useable_ratio = d.budget from rfl] at h
  simp [Device.try_reserve, if_neg h]

/-- The Device of the spec's first scenario (80000 MB, ratio 0.8, 25000 MB
of weights) after one successful 600 MB KV-cache reservation. -/
def deviceAfterAdmission : Device :=
  (({ net_memory := 80000, useable_ratio := 0.8, weights := 25000,
      kv_committed := 0 } : Device).try_reserve 600).1

/-- Witness for C1 at the scenario Device. -/
theorem device_admission_invariant_witness :
    Device.Reachable deviceAfterAdmission ∧
    (deviceAfterAdmission.weights + deviceAfterAdmission.kv_committed ≤
        deviceAfterAdmission.net_memory * deviceAfterAdmission.useable_ratio ∧
      ∀ bytes : ℚ,
        ¬ deviceAfterAdmission.weights + deviceAfterAdmission.kv_committed + bytes ≤
            deviceAfterAdmission.net_memory * deviceAfterAdmission.useable_ratio →
        (deviceAfterAdmission.try_reserve bytes).2 = false ∧
        (deviceAfterAdmission.try_reserve bytes).1 = deviceAfterAdmission) :=
  have hr : Device.Reachable deviceAfterAdmission :=
    Device.Reachable.reserve _ 600 (by norm_num)
      (Device.Reachable.init 80000 0.8 25000 (by norm_num))
  ⟨hr, device_admission_invariant deviceAfterAdmission hr⟩

/-- Counterexample for C2: the hack-variant sink registers no histogram named
time_per_output_token_seconds at all, and the tools-variant sink registers a
histogram (request_generation_tokens) beyond the claimed set, so neither sink
registers exactly the claimed metrics. -/
theorem metrics_not_exactly_as_claimed :
    ¬ registersMetric hackMetrics .histogram "time_per_output_token_seconds" ∧
    registersMetric toolsMetrics .histogram "request_generation_tokens" := by
  constructor
  · decide
  · decide

/-- C2 (amended): what the two sinks actually register, keyed by model name.
Both register the three gauges and the request_queue_time_seconds histogram
with buckets spanning 0.3s to 7680s.  The hack variant's counters are exposed
as requests_count_total and tokens_count_total and it registers no
time_per_output_token_seconds histogram; the tools variant registers split
arrival/success counters and a tokens counter, the
time_per_output_token_seconds histogram with buckets spanning 0.01s to 2.5s,
and additionally a request_generation_tokens histogram. -/
theorem metrics_registrations :
    hackMetrics.map exposedName =
      [ "vllm:num_requests_running", "vllm:num_requests_waiting",
        "vllm:gpu_cache_usage_perc", "vllm:requests_count_total",
        "vllm:tokens_count_total", "vllm:request_queue_time_seconds" ] ∧
    toolsMetrics.map exposedName =
      [ "vllm:num_requests_running", "vllm:num_requests_waiting",
        "vllm:gpu_cache_usage_perc", "vllm:request_arrival_total",
        "vllm:request_success_total", "vllm:tokens_total",
        "vllm:time_per_output_token_seconds", "vllm:request_queue_time_seconds",
        "vllm:request_generation_tokens" ] ∧
    hackMetrics.map MetricRegistration.kind =
      [.gauge, .gauge, .gauge, .counter, .counter, .histogram] ∧
    toolsMetrics.map MetricRegistration.kind =
      [.gauge, .gauge, .gauge, .counter, .counter, .counter,
       .histogram, .histogram, .histogram] ∧
    (∀ r ∈ hackMetrics ++ toolsMetrics,
       r.name = "vllm:request_queue_time_seconds" →
       r.buckets = request_latency_buckets) ∧
    (∀ r ∈ toolsMetrics,
       r.name = "vllm:time_per_output_token_seconds" → r.buckets = itl_buckets) ∧
    request_latency_buckets.head? = some 0.3 ∧
    request_latency_buckets.getLast? = some 7680 ∧
    itl_buckets.head? = some 0.01 ∧
    itl_buckets.getLast? = some 2.5 ∧
    ¬ registersMetric hackMetrics .histogram "time_per_output_token_seconds" := by
  refine ⟨rfl, rfl, rfl, rfl, ?_, ?_, rfl, ?_, rfl, ?_, by decide⟩
  · intro r hr hn
    simp only [hackMetrics, toolsMetrics, List.append_eq, List.mem_append,
      List.mem_cons, List.not_mem_nil, or_false] at hr
    rcases hr with (hr | hr | hr | hr | hr | hr) |
      (hr | hr | hr | hr | hr | hr | hr | hr | hr) <;> subst hr <;>
      first
        | rfl
        | exact absurd hn (by decide)
  · intro r hr hn
    simp only [toolsMetrics, List.mem_cons, List.not_mem_nil, or_false] at hr
    rcases hr with hr | hr | hr | hr | hr | hr | hr | hr | hr <;> subst hr <;>
      first
        | rfl
        | exact absurd hn (by decide)
  · norm_num [request_latency_buckets]
  · norm_num [itl_buckets]

theorem chat_completions_eq
    (load : Int → Int) (submit : RequestElement → RequestElement)
    (req_id : String) (created : Int) (request : ChatCompletionRequest)
    (lastMsg : ChatMessage) (hlast : request.messages.getLast? = some lastMsg) :
    chat_completions load submit req_id created request =
      some { id := req_id, object := "chat.completion", created := created,
             model := request.model,
             content :=
               if !request.messages.isEmpty && (request.messages.headI.role == "user")
               then RespContent.stats (statsFields (submit (mkRequestElement req_id
                      (lastMsg.content.length : Int)
                      (load (lastMsg.content.length : Int)))))
               else RespContent.emptyMessageSent,
             prompt_tokens := (submit (mkRequestElement req_id
               (lastMsg.content.length : Int)
               (load (lastMsg.content.length : Int)))).InputTokenLength,
             completion_tokens := (submit (mkRequestElement req_id
               (lastMsg.content.length : Int)
               (load (lastMsg.content.length : Int)))).token_len } := by
  unfold chat_completions
  rw [hlast]

/-- C3: for every chat-completions request whose message list has a last
element, the handler derives the input length as the character count of that
last message's content, obtains the output length from the load generator,
constructs the RequestElement with exactly those lengths, and hands it to the
scheduler's blocking submit; the response it returns is built from the
request as the resolved completion signal left it. -/
theorem chat_completions_flow
    (load : Int → Int) (submit : RequestElement → RequestElement)
    (req_id : String) (created : Int) (request : ChatCompletionRequest)
    (lastMsg : ChatMessage) (hlast : request.messages.getLast? = some lastMsg) :
    (mkRequestElement req_id (lastMsg.content.length : Int)
        (load (lastMsg.content.length : Int))).InputTokenLength =
      (lastMsg.content.length : Int) ∧
    (mkRequestElement req_id (lastMsg.content.length : Int)
        (load (lastMsg.content.length : Int))).OutputTokenLength =
      load (lastMsg.content.length : Int) ∧
    chat_completions load submit req_id created request =
      some { id := req_id, object := "chat.completion", created := created,
             model := request.model,
             content :=
               if !request.messages.isEmpty && (request.messages.headI.role == "user")
               then RespContent.stats (statsFields (submit (mkRequestElement req_id
                      (lastMsg.content.length : Int)
                      (load (lastMsg.content.length : Int)))))
               else RespContent.emptyMessageSent,
             prompt_tokens := (submit (mkRequestElement req_id
               (lastMsg.content.length : Int)
               (load (lastMsg.content.length : Int)))).InputTokenLength,
             completion_tokens := (submit (mkRequestElement req_id
               (lastMsg.content.length : Int)
               (load (lastMsg.content.length : Int)))).token_len } :=
  ⟨rfl, rfl, chat_completions_eq load submit req_id created request lastMsg hlast⟩

/-- The load generator used by the handler witnesses. -/
def loadW : Int → Int := fun n => n + 2

/-- The scheduler stand-in used by the handler witnesses: resolves the
request with its timestamps set and all target tokens generated. -/
def submitW : RequestElement → RequestElement := fun r =>
  { r with token_len := r.OutputTokenLength, arrival_time := some 1,
           admission_time := some 2, ttft_met_time := some 3,
           completion_time := some 4 }

/-- The single user message of the C3 witness request. -/
def msgW : ChatMessage := { role := "user", content := "abcde" }

/-- The C3 witness request body. -/
def requestW : ChatCompletionRequest := { messages := [msgW] }

/-- Witness for C3 at a one-message request. -/
theorem chat_completions_flow_witness :
    requestW.messages.getLast? = some msgW ∧
    ((mkRequestElement "rid" (msgW.content.length : Int)
        (loadW (msgW.content.length : Int))).InputTokenLength =
      (msgW.content.length : Int) ∧
    (mkRequestElement "rid" (msgW.content.length : Int)
        (loadW (msgW.content.length : Int))).OutputTokenLength =
      loadW (msgW.content.length : Int) ∧
    chat_completions loadW submitW "rid" 0 requestW =
      some { id := "rid", object := "chat.completion", created := 0,
             model := requestW.model,
             content :=
               if !requestW.messages.isEmpty && (requestW.messages.headI.role == "user")
               then RespContent.stats (statsFields (submitW (mkRequestElement "rid"
                      (msgW.content.length : Int)
                      (loadW (msgW.content.length : Int)))))
               else RespContent.emptyMessageSent,
             prompt_tokens := (submitW (mkRequestElement "rid"
               (msgW.content.length : Int)
               (loadW (msgW.content.length : Int)))).InputTokenLength,
             completion_tokens := (submitW (mkRequestElement "rid"
               (msgW.content.length : Int)
               (loadW (msgW.content.length : Int)))).token_len }) :=
  ⟨rfl, chat_completions_flow loadW submitW "rid" 0 requestW msgW rfl⟩

/-- C10: the handler submits the request to the scheduler and awaits its
completion before inspecting message roles, so a request whose first
message's role is not user still goes through a full scheduling pass and is
answered with the empty-message reply while its usage carries the completed
request's real input and output token counts. -/
theorem chat_completions_non_user_still_scheduled
    (load : Int → Int) (submit : RequestElement → RequestElement)
    (req_id : String) (created : Int) (request : ChatCompletionRequest)
    (lastMsg : ChatMessage) (hlast : request.messages.getLast? = some lastMsg)
    (hrole : request.messages.headI.role ≠ "user") :
    chat_completions load submit req_id created request =
      some { id := req_id, object := "chat.completion", created := created,
             model := request.model,
             content := RespContent.emptyMessageSent,
             prompt_tokens := (submit (mkRequestElement req_id
               (lastMsg.content.length : Int)
               (load (lastMsg.content.length : Int)))).InputTokenLength,
             completion_tokens := (submit (mkRequestElement req_id
               (lastMsg.content.length : Int)
               (load (lastMsg.content.length : Int)))).token_len } := by
  have hcond : (!request.messages.isEmpty &&
      (request.messages.headI.role == "user")) = false := by
    have : (request.messages.headI.role == "user") = false := by
      simpa using hrole
    simp [this]
  rw [chat_completions_eq load submit req_id created request lastMsg hlast, hcond]
  rfl

/-- The first message of the C10 witness request: its role is not user. -/
def msgSysW : ChatMessage := { role := "system", content := "xyz" }

/-- The C10 witness request body. -/
def requestSysW : ChatCompletionRequest := { messages := [msgSysW] }

/-- Witness for C10 at a request whose only message has role system. -/
theorem chat_completions_non_user_witness :
    requestSysW.messages.getLast? = some msgSysW ∧
    requestSysW.messages.headI.role ≠ "user" ∧
    chat_completions loadW submitW "rid2" 0 requestSysW =
      some { id := "rid2", object := "chat.completion", created := 0,
             model := requestSysW.model,
             content := RespContent.emptyMessageSent,
             prompt_tokens := (submitW (mkRequestElement "rid2"
               (msgSysW.content.length : Int)
               (loadW (msgSysW.content.length : Int)))).InputTokenLength,
             completion_tokens := (submitW (mkRequestElement "rid2"
               (msgSysW.content.length : Int)
               (loadW (msgSysW.content.length : Int)))).token_len } :=
  ⟨rfl, by decide,
   chat_completions_non_user_still_scheduled loadW submitW "rid2" 0 requestSysW
     msgSysW rfl (by decide)⟩

/-- A completed request with pairwise distinct timestamps: arrival 1,
admission 2, TTFT 3, completion 10, and token counts 3 and 4. -/
def rc4 : RequestElement :=
  { req_id := "r-7", InputTokenLength := 3, OutputTokenLength := 4,
    token_len := 4, arrival_time := some 1, admission_time := some 2,
    ttft_met_time := some 3, completion_time := some 10 }

/-- Counterexample for C4: for the completed request rc4 the response's
stats fields carry its arrival, TTFT and completion timestamps, yet no field
carries its admission timestamp — the response does not contain the
admission timestamp. -/
theorem response_lacks_admission_time :
    (∃ p ∈ statsFields rc4, p.2 = StatValue.time rc4.arrival_time) ∧
    (∃ p ∈ statsFields rc4, p.2 = StatValue.time rc4.ttft_met_time) ∧
    (∃ p ∈ statsFields rc4, p.2 = StatValue.time rc4.completion_time) ∧
    ¬ (∃ p ∈ statsFields rc4, p.2 = StatValue.time rc4.admission_time) := by
  refine ⟨⟨("arrival time", StatValue.time rc4.arrival_time),
            by simp [statsFields], rfl⟩,
          ⟨("ttft", StatValue.time rc4.ttft_met_time),
            by simp [statsFields], rfl⟩,
          ⟨("completion time", StatValue.time rc4.completion_time),
            by simp [statsFields], rfl⟩, ?_⟩
  rintro ⟨p, hp, hv⟩
  simp only [statsFields, List.mem_cons, List.not_mem_nil, or_false] at hp
  rcases hp with hp | hp | hp | hp | hp <;> subst hp <;>
    simp only [rc4, StatValue.time.injEq, StatValue.count.injEq] at hv <;>
    first
      | exact absurd (Option.some.inj hv) (by norm_num)
      | exact hv
      | exact StatValue.noConfusion hv

/-- C4 (amended): the response reported back for a completed request carries
its arrival, TTFT and completion timestamps and its input and output token
counts; no field of the response carries the admission timestamp. -/
theorem response_reports_fields (r : RequestElement) :
    (∃ p ∈ statsFields r, p.2 = StatValue.time r.arrival_time) ∧
    (∃ p ∈ statsFields r, p.2 = StatValue.time r.ttft_met_time) ∧
    (∃ p ∈ statsFields r, p.2 = StatValue.time r.completion_time) ∧
    (∃ p ∈ statsFields r, p.2 = StatValue.count r.InputTokenLength) ∧
    (∃ p ∈ statsFields r, p.2 = StatValue.count r.token_len) ∧
    "admission time" ∉ (statsFields r).map Prod.fst :=
  ⟨⟨("arrival time", StatValue.time r.arrival_time), by simp [statsFields], rfl⟩,
   ⟨("ttft", StatValue.time r.ttft_met_time), by simp [statsFields], rfl⟩,
   ⟨("completion time", StatValue.time r.completion_time), by simp [statsFields], rfl⟩,
   ⟨("input_token_len", StatValue.count r.InputTokenLength), by simp [statsFields], rfl⟩,
   ⟨("output_token_len", StatValue.count r.token_len), by simp [statsFields], rfl⟩,
   by simp [statsFields]⟩

/-- Counterexample for C5: the Device's usable-memory fraction is not
configurable — no two configurations yield different usable ratios, the
constructed Device's ratio being the literal 0.8 of server.py line 55. -/
theorem useable_ratio_not_configurable :
    ¬ ∃ s1 s2 : Settings,
        (buildSystem s1).gpu.useable_ratio ≠ (buildSystem s2).gpu.useable_ratio := by
  rintro ⟨s1, s2, h⟩
  exact h rfl

/-- C5 (amended): construction consumes from the configuration surface the
model name, weight-memory size, per-token KV-cache cost, prefill duration,
decode duration, total device memory, maximum batch size, average output
length, output-length distribution family and clock pacing mode; the
usable-memory fraction is the fixed literal 0.8 and no random seed is part of
the configuration surface. -/
theorem buildSystem_config (s : Settings) :
    (buildSystem s).model.model_name = s.model ∧
    (buildSystem s).model.model_size = s.model_size ∧
    (buildSystem s).model.kvcache_per_token = s.kvc_per_token ∧
    (buildSystem s).model.prefill_time = s.prefill_time ∧
    (buildSystem s).model.decode_time = s.decode_time ∧
    (buildSystem s).clock.step_time = s.decode_time ∧
    (buildSystem s).clock.realtime = s.realtime ∧
    (buildSystem s).gpu.net_memory = s.mem_size ∧
    (buildSystem s).vllmi.max_batch_size = s.max_batch_size ∧
    (buildSystem s).load.avg_generated_len = s.avg_generated_len ∧
    (buildSystem s).load.tokens_distribution = s.tokens_distribution ∧
    (buildSystem s).gpu.useable_ratio = 0.8 :=
  ⟨rfl, rfl, rfl, rfl, rfl, rfl, rfl, rfl, rfl, rfl, rfl, rfl⟩

/-- C6 (modelled from the spec): validated construction fails with a
ConfigurationError exactly when one of the memory constants (weight size,
per-token KV-cache cost, total memory), one of the timing constants (decode
or prefill duration) or the maximum batch size is non-positive; otherwise it
returns the constructed system. -/
theorem constructChecked_fails_iff (s : Settings) :
    ((∃ e, constructChecked s = .error e) ↔
      (s.decode_time ≤ 0 ∨ s.prefill_time ≤ 0 ∨ s.model_size ≤ 0 ∨
       s.kvc_per_token ≤ 0 ∨ s.mem_size ≤ 0 ∨ s.max_batch_size ≤ 0)) ∧
    ((constructChecked s = .ok (buildSystem s)) ↔
      ¬ (s.decode_time ≤ 0 ∨ s.prefill_time ≤ 0 ∨ s.model_size ≤ 0 ∨
         s.kvc_per_token ≤ 0 ∨ s.mem_size ≤ 0 ∨ s.max_batch_size ≤ 0)) := by
  unfold constructChecked
  split
  · next h =>
      refine ⟨⟨fun _ => h, fun _ => ⟨.nonPositiveConstant, rfl⟩⟩, ?_⟩
      exact ⟨fun he => absurd he (by simp), fun hn => absurd h hn⟩
  · next h =>
      refine ⟨⟨?_, fun hh => absurd hh h⟩, ⟨fun _ => h, fun _ => rfl⟩⟩
      rintro ⟨e, he⟩
      exact absurd he (by simp)

/-- A front-end request built in the second 2026-10-12T08:00:00 with random
draw 7, input length 3, output length 5. -/
def reqCollA : RequestElement := mkRequestElement (mkReqId "2026-10-12T08:00:00-" 7) 3 5

/-- A distinct front-end request built in the same second with the same
random draw, input length 4, output length 6. -/
def reqCollB : RequestElement := mkRequestElement (mkReqId "2026-10-12T08:00:00-" 7) 4 6

/-- Counterexample for C8: two distinct requests constructed by the
front-end in the same second and with the same random draw receive the same
id. -/
theorem request_ids_can_collide :
    reqCollA.req_id = reqCollB.req_id ∧ reqCollA ≠ reqCollB := by
  refine ⟨rfl, ?_⟩
  intro h
  have : reqCollA.InputTokenLength = reqCollB.InputTokenLength := by rw [h]
  simp [reqCollA, reqCollB, mkRequestElement] at this

/-- C8 (amended): a request's id is a function of the construction second
and the random draw alone — it does not depend on anything distinguishing
the request — so two distinct requests sharing both collide, and ids are
unique only across differing seconds or draws. -/
theorem req_id_from_second_and_draw
    (nowSecond : String) (r : ℕ) (il ol il' ol' : Int) :
    (mkRequestElement (mkReqId nowSecond r) il ol).req_id =
      (mkRequestElement (mkReqId nowSecond r) il' ol').req_id := rfl

end VllmEmulator
